/-
Verification of the API-gateway / auth-service behaviour of the
Microservicios-Arquitectura repository, as a shallow embedding in Lean 4.

Each definition below is translated from a concrete function of the
JavaScript source; the file it comes from is named in its doc comment.
Time is modelled as milliseconds (`Nat`, JavaScript `Date.now()`), and
JavaScript's `null` initial timestamp is modelled as `0` (JS coerces
`null` to `0` in arithmetic, so `Date.now() - null = Date.now()` agrees).
-/
import Mathlib

namespace Gateway

/-! ## Circuit breaker (api-gateway/src/middleware/proxy.js) -/

/-- The three values of the `state` field of the `CircuitBreaker` class:
`'CLOSED'`, `'OPEN'`, `'HALF_OPEN'`. -/
inductive CBStatus where
  | closed
  | opened
  | halfOpen
deriving DecidableEq, Repr

/-- The mutable fields and constructor parameters of the `CircuitBreaker`
class (proxy.js lines 6–14).  `lastFailureTime = 0` models the JS initial
`null` (coerced to 0 in `Date.now() - this.lastFailureTime`). -/
structure CircuitBreaker where
  threshold : Nat
  resetTimeout : Nat
  failureCount : Nat
  lastFailureTime : Nat
  state : CBStatus
deriving DecidableEq, Repr

/-- `new CircuitBreaker()` with the default constructor arguments
`threshold = 5`, `resetTimeout = 30000` (proxy.js line 7). -/
def CircuitBreaker.initial : CircuitBreaker :=
  { threshold := 5, resetTimeout := 30000,
    failureCount := 0, lastFailureTime := 0, state := .closed }

/-- `CircuitBreaker.onSuccess` (proxy.js lines 36–39): reset the failure
count and close the circuit. -/
def CircuitBreaker.onSuccess (b : CircuitBreaker) : CircuitBreaker :=
  { b with failureCount := 0, state := .closed }

/-- `CircuitBreaker.onFailure` (proxy.js lines 41–49): increment the
failure count, record the failure time, and open the circuit once the
count reaches the threshold. -/
def CircuitBreaker.onFailure (b : CircuitBreaker) (now : Nat) : CircuitBreaker :=
  let b1 := { b with failureCount := b.failureCount + 1, lastFailureTime := now }
  if b1.failureCount ≥ b1.threshold then { b1 with state := .opened } else b1

/-- Outcome of one `CircuitBreaker.call` invocation: the wrapped function
ran and succeeded, ran and failed, or was rejected without running
(`throw new Error('Circuit breaker está abierto')`). -/
inductive CallResult where
  | succeeded
  | failed
  | rejected
deriving DecidableEq, Repr

/-- `CircuitBreaker.call(fn)` (proxy.js lines 16–34), one sequential
invocation at time `now`, where `ok` is whether the wrapped call `fn()`
would succeed.  Returns the updated breaker and what happened. -/
def CircuitBreaker.call (b : CircuitBreaker) (now : Nat) (ok : Bool) :
    CircuitBreaker × CallResult :=
  if b.state = .opened then
    if now - b.lastFailureTime > b.resetTimeout then
      let b1 := { b with state := .halfOpen }
      if ok then (b1.onSuccess, .succeeded) else (b1.onFailure now, .failed)
    else
      (b, .rejected)
  else
    if ok then (b.onSuccess, .succeeded) else (b.onFailure now, .failed)

/-- Breaker states reachable from `CircuitBreaker.initial` by sequential
`call` invocations. -/
inductive CBReachable : CircuitBreaker → Prop where
  | init : CBReachable CircuitBreaker.initial
  | step {b : CircuitBreaker} (now : Nat) (ok : Bool) :
      CBReachable b → CBReachable (b.call now ok).1

/-- Invariant maintained by the breaker: between calls it never rests in
`HALF_OPEN`, an open breaker has accumulated at least `threshold`
failures, and the constructor parameters are the defaults. -/
def CBInv (b : CircuitBreaker) : Prop :=
  b.state ≠ .halfOpen ∧
  (b.state = .opened → b.failureCount ≥ b.threshold) ∧
  b.threshold = 5 ∧ b.resetTimeout = 30000

theorem cbInv_initial : CBInv CircuitBreaker.initial := by
  refine ⟨by decide, ?_, rfl, rfl⟩
  intro h
  simp [CircuitBreaker.initial] at h

theorem cbInv_step (b : CircuitBreaker) (now : Nat) (ok : Bool)
    (h : CBInv b) : CBInv (b.call now ok).1 := by
  obtain ⟨h1, h2, h3, h4⟩ := h
  simp only [CircuitBreaker.call, CircuitBreaker.onSuccess, CircuitBreaker.onFailure, CBInv]
  split_ifs <;> simp_all
  omega

theorem cbInv_of_reachable (b : CircuitBreaker) (h : CBReachable b) : CBInv b := by
  induction h with
  | init => exact cbInv_initial
  | step now ok _ ih => exact cbInv_step _ now ok ih

theorem onFailure_lastFailureTime (b : CircuitBreaker) (now : Nat) :
    (b.onFailure now).lastFailureTime = now := by
  simp only [CircuitBreaker.onFailure]
  split <;> rfl

theorem onFailure_state_of_ge (b : CircuitBreaker) (now : Nat)
    (h : b.failureCount + 1 ≥ b.threshold) : (b.onFailure now).state = .opened := by
  simp only [CircuitBreaker.onFailure]
  rw [if_pos (by simpa using h)]

theorem onFailure_state_of_lt (b : CircuitBreaker) (now : Nat)
    (h : b.failureCount + 1 < b.threshold) : (b.onFailure now).state = b.state := by
  simp only [CircuitBreaker.onFailure]
  rw [if_neg (by simp; omega)]

theorem call_not_open_success (b : CircuitBreaker) (now : Nat)
    (h : b.state ≠ .opened) : b.call now true = (b.onSuccess, .succeeded) := by
  simp [CircuitBreaker.call, if_neg h]

theorem call_not_open_failure (b : CircuitBreaker) (now : Nat)
    (h : b.state ≠ .opened) : b.call now false = (b.onFailure now, .failed) := by
  simp [CircuitBreaker.call, if_neg h]

theorem call_open_within_window (b : CircuitBreaker) (now : Nat) (ok : Bool)
    (ho : b.state = .opened) (h : ¬ now - b.lastFailureTime > b.resetTimeout) :
    b.call now ok = (b, .rejected) := by
  simp only [CircuitBreaker.call, if_pos ho, if_neg h]

theorem call_open_probe_success (b : CircuitBreaker) (now : Nat)
    (ho : b.state = .opened) (h : now - b.lastFailureTime > b.resetTimeout) :
    b.call now true = (({ b with state := .halfOpen }).onSuccess, .succeeded) := by
  simp [CircuitBreaker.call, if_pos ho, if_pos h]

theorem call_open_probe_failure (b : CircuitBreaker) (now : Nat)
    (ho : b.state = .opened) (h : now - b.lastFailureTime > b.resetTimeout) :
    b.call now false = (({ b with state := .halfOpen }).onFailure now, .failed) := by
  simp [CircuitBreaker.call, if_pos ho, if_pos h]

/-- What the per-route request handler does with an incoming request:
either hand it to the proxy middleware (which opens a socket to the
upstream) or answer locally without contacting the upstream. -/
inductive GatewayAction where
  | forwardToUpstream
  | rejectLocally (status : Nat)
deriving DecidableEq, Repr

/-- The wrapper returned by `createProxyForRoute` (proxy.js lines
163–173).  Although the function obtains a `CircuitBreaker` for the
route's target at line 114, the wrapper it returns is commented
"Simplified wrapper without circuit breaker (temporary)" / "Direct proxy
without circuit breaker or health checks" and calls `proxy(req, res,
next)` unconditionally, never consulting or updating the breaker. -/
def createProxyForRouteHandler (_breaker : CircuitBreaker) : GatewayAction :=
  .forwardToUpstream

/-- The breaker state after 5 consecutive forwarding failures (e.g.
connection refused) at times 1..5 ms, starting from a fresh breaker. -/
def afterFiveFailures : CircuitBreaker :=
  (((((CircuitBreaker.initial.call 1 false).1.call 2 false).1.call
      3 false).1.call 4 false).1.call 5 false).1

/-- C1: the claim fails on the code.  After 5 consecutive failures the
breaker object would be Open, and `CircuitBreaker.call` invoked while
still inside the reset window would reject; but the request handler
produced by `createProxyForRoute` never consults the breaker, so the 6th
request (like every request) is handed to the proxy middleware — a socket
is opened to the upstream and no local 503 is produced. -/
theorem circuit_breaker_not_wired_sixth_request_forwarded :
    afterFiveFailures.state = .opened ∧
    (afterFiveFailures.call 6 true).2 = .rejected ∧
    (∀ b : CircuitBreaker, createProxyForRouteHandler b = .forwardToUpstream) ∧
    createProxyForRouteHandler afterFiveFailures ≠ .rejectLocally 503 := by
  refine ⟨by decide, by decide, fun b => rfl, by decide⟩

/-- C2 (amended): the breaker state machine takes exactly the listed
transitions, except that the Open→HalfOpen probe requires *strictly more*
than `resetTimeout` to have elapsed since `last_failure_time` (the code
tests `Date.now() - this.lastFailureTime > this.resetTimeout`).  For
every reachable breaker `b` and any call at time `now` with outcome `ok`:
Closed + success → Closed with count 0; Closed + failure records the
failure time and opens exactly when the count reaches the threshold;
Open within the window → rejected, unchanged; Open after strictly more
than `resetTimeout` → half-open trial, closing (count 0) on success and
re-opening on failure; the breaker never rests in HalfOpen and every
state is one of the three enumerated values. -/
theorem cb_state_machine_transitions (b : CircuitBreaker) (hb : CBReachable b)
    (now : Nat) (ok : Bool) :
    (b.state = .closed → ok = true →
       ((b.call now ok).1.state = .closed ∧ (b.call now ok).1.failureCount = 0)) ∧
    (b.state = .closed → ok = false →
       ((b.call now ok).1.lastFailureTime = now ∧
        (b.failureCount + 1 ≥ b.threshold → (b.call now ok).1.state = .opened) ∧
        (b.failureCount + 1 < b.threshold → (b.call now ok).1.state = .closed))) ∧
    (b.state = .opened → now - b.lastFailureTime ≤ b.resetTimeout →
       ((b.call now ok).1 = b ∧ (b.call now ok).2 = .rejected)) ∧
    (b.state = .opened → now - b.lastFailureTime > b.resetTimeout →
       ((ok = true → ((b.call now ok).1.state = .closed ∧
                      (b.call now ok).1.failureCount = 0)) ∧
        (ok = false → (b.call now ok).1.state = .opened))) ∧
    b.state ≠ .halfOpen ∧ (b.call now ok).1.state ≠ .halfOpen ∧
    ((b.call now ok).1.state = .closed ∨ (b.call now ok).1.state = .opened ∨
     (b.call now ok).1.state = .halfOpen) := by
  obtain ⟨h1, h2, h3, h4⟩ := cbInv_of_reachable b hb
  have hstep := cbInv_step b now ok ⟨h1, h2, h3, h4⟩
  obtain ⟨g1, g2, g3, g4⟩ := hstep
  refine ⟨?_, ?_, ?_, ?_, h1, g1, ?_⟩
  · intro hc hok
    subst hok
    rw [call_not_open_success b now (by simp [hc])]
    simp [CircuitBreaker.onSuccess]
  · intro hc hok
    subst hok
    rw [call_not_open_failure b now (by simp [hc])]
    refine ⟨onFailure_lastFailureTime b now, ?_, ?_⟩
    · intro hth
      exact onFailure_state_of_ge b now hth
    · intro hth
      rw [onFailure_state_of_lt b now hth]
      exact hc
  · intro ho helapsed
    rw [call_open_within_window b now ok ho (by omega)]
    exact ⟨rfl, rfl⟩
  · intro ho helapsed
    have hth : b.failureCount ≥ b.threshold := h2 ho
    constructor
    · intro hok
      subst hok
      rw [call_open_probe_success b now ho helapsed]
      simp [CircuitBreaker.onSuccess]
    · intro hok
      subst hok
      rw [call_open_probe_failure b now ho helapsed]
      exact onFailure_state_of_ge _ now (by simpa using Nat.le_succ_of_le hth)
  · cases hres : (b.call now ok).1.state with
    | closed => exact Or.inl rfl
    | opened => exact Or.inr (Or.inl rfl)
    | halfOpen => exact Or.inr (Or.inr rfl)

/-- Witness for C2's theorem: the initial breaker is reachable and a
successful call on it stays Closed with the counter at 0. -/
theorem cb_state_machine_transitions_witness :
    (CircuitBreaker.initial.call 0 true).1.state = .closed ∧
    (CircuitBreaker.initial.call 0 true).1.failureCount = 0 :=
  (cb_state_machine_transitions CircuitBreaker.initial CBReachable.init 0 true).1
    rfl rfl

/-- Counterexample for C2 as stated: the claim says the Open→HalfOpen
transition fires once *at least* `resetTimeout` has elapsed.  On the
breaker that is Open after 5 failures (last failure at 5 ms), a call at
30005 ms — exactly `resetTimeout = 30000` ms later — is still rejected
and the breaker stays Open, because the code requires strictly more than
`resetTimeout` to have elapsed. -/
theorem cb_reset_boundary_counterexample :
    afterFiveFailures.state = .opened ∧
    30005 - afterFiveFailures.lastFailureTime = afterFiveFailures.resetTimeout ∧
    (afterFiveFailures.call 30005 true).2 = .rejected ∧
    (afterFiveFailures.call 30005 true).1.state = .opened := by
  decide

/-! ## Route table and router (api-gateway/src/config/routes.js, index.js) -/

/-- JavaScript `path.startsWith(prefix)`: character-wise prefix test. -/
def strStartsWith (s pre : String) : Bool :=
  pre.data.isPrefixOf s.data

/-- One entry of the static route table (config/routes.js lines 4–15 and
following): mount path, upstream target, rewrite rules, timeout, retry
count and health path. -/
structure Route where
  path : String
  target : String
  pathRewrite : List (String × String)
  timeout : Nat
  retries : Nat
  healthCheck : String
deriving DecidableEq, Repr

/-- The first configured route (config/routes.js lines 4–15), with the
environment-variable default target. -/
def authRoute : Route :=
  { path := "/api/auth/v1", target := "http://auth-service:3001",
    pathRewrite := [("^/api/auth/v1", "")], timeout := 30000, retries := 3,
    healthCheck := "/health" }

/-- The static route table `module.exports.routes` (config/routes.js
lines 3–64), in configuration order, with the environment-variable
default targets. -/
def routes : List Route :=
  [ authRoute,
    { path := "/api/users/v1", target := "http://user-service:3002",
      pathRewrite := [("^/api/users/v1", "")], timeout := 30000, retries := 3,
      healthCheck := "/health" },
    { path := "/api/products/v1", target := "http://product-service:3003",
      pathRewrite := [("^/api/products/v1", "")], timeout := 30000, retries := 3,
      healthCheck := "/health" },
    { path := "/api/orders/v1", target := "http://order-service:3004",
      pathRewrite := [("^/api/orders/v1", "")], timeout := 30000, retries := 3,
      healthCheck := "/health" },
    { path := "/api/notifications/v1", target := "http://notification-service:3005",
      pathRewrite := [("^/api/notifications/v1", "")], timeout := 30000, retries := 3,
      healthCheck := "/health" } ]

/-- `getRouteConfig(path)` (config/routes.js lines 89–91):
`this.routes.find(route => path.startsWith(route.path))`. -/
def getRouteConfig (p : String) : Option Route :=
  routes.find? (fun r => strStartsWith p r.path)

/-- Outcome of gateway dispatch for one request path. -/
inductive Dispatch where
  | forwarded (r : Route)
  | notFound (status : Nat)
deriving DecidableEq, Repr

/-- Gateway dispatch: routes are mounted in configuration order
(index.js line 48, `routeConfig.routes.forEach`), and a request matching
no route falls through to the `app.use('*')` handler, which responds 404
(index.js lines 129–136). -/
def dispatchRequest (p : String) : Dispatch :=
  match getRouteConfig p with
  | some r => .forwarded r
  | none => .notFound 404

theorem find_first_decomp {α : Type} (p : α → Bool) (l : List α) (a : α)
    (h : l.find? p = some a) :
    ∃ l1 l2, l = l1 ++ a :: l2 ∧ p a = true ∧ ∀ x ∈ l1, p x = false := by
  induction l with
  | nil => simp at h
  | cons y ys ih =>
    by_cases hy : p y = true
    · rw [List.find?_cons_of_pos _ hy, Option.some_inj] at h
      subst h
      exact ⟨[], ys, rfl, hy, by intro x hx; simp at hx⟩
    · rw [List.find?_cons_of_neg _ hy] at h
      obtain ⟨l1, l2, hl, hpa, hall⟩ := ih h
      refine ⟨y :: l1, l2, by rw [hl]; rfl, hpa, ?_⟩
      intro x hx
      rcases List.mem_cons.mp hx with hx | hx
      · subst hx; exact Bool.eq_false_iff.mpr hy
      · exact hall x hx

/-- C3: for every incoming request path `P`, the gateway forwards to the
first route in configuration order whose configured path prefix `P`
starts with; when no configured prefix matches, the response is 404. -/
theorem router_first_prefix_match_or_404 (P : String) :
    (getRouteConfig P = none →
       (∀ r ∈ routes, strStartsWith P r.path = false) ∧
       dispatchRequest P = .notFound 404) ∧
    (∀ r, getRouteConfig P = some r →
       strStartsWith P r.path = true ∧ dispatchRequest P = .forwarded r ∧
       ∃ l1 l2, routes = l1 ++ r :: l2 ∧
         ∀ r' ∈ l1, strStartsWith P r'.path = false) := by
  constructor
  · intro hnone
    refine ⟨?_, by simp [dispatchRequest, hnone]⟩
    intro r hr
    have := List.find?_eq_none.mp hnone r hr
    exact Bool.eq_false_iff.mpr this
  · intro r hr
    obtain ⟨l1, l2, hl, hp, hall⟩ := find_first_decomp _ routes r hr
    exact ⟨hp, by simp [dispatchRequest, hr], l1, l2, hl, hall⟩

/-- Witness for C3's theorem at the concrete path `/api/auth/v1/me`:
it is forwarded to the auth route, the first configured route. -/
theorem router_first_prefix_match_or_404_witness :
    strStartsWith "/api/auth/v1/me" authRoute.path = true ∧
    dispatchRequest "/api/auth/v1/me" = .forwarded authRoute ∧
    ∃ l1 l2, routes = l1 ++ authRoute :: l2 ∧
      ∀ r' ∈ l1, strStartsWith "/api/auth/v1/me" r'.path = false :=
  (router_first_prefix_match_or_404 "/api/auth/v1/me").2 authRoute (by decide)

/-! ## Path rewriting (api-gateway/src/index.js lines 48–63)

Every rewrite pattern in the route table is a caret-anchored literal
string `^<literal>` with no other regex metacharacters, so
`new RegExp(pattern).test(url)` is a prefix test on the literal and
`url.replace(regex, replacement)` substitutes that leading literal once. -/

/-- The literal behind a caret-anchored pattern: drop the leading `^`. -/
def anchoredLit (pat : String) : String :=
  ⟨pat.data.drop 1⟩

/-- `new RegExp(pattern).test(originalUrl)` for the anchored-literal
patterns of the route table. -/
def regexTestAnchored (pat url : String) : Bool :=
  strStartsWith url (anchoredLit pat)

/-- `originalUrl.replace(regex, replacement)` for the anchored-literal
patterns of the route table: replace the matched leading literal once. -/
def regexReplaceAnchored (pat rep url : String) : String :=
  ⟨rep.data ++ url.data.drop (anchoredLit pat).data.length⟩

/-- The rewrite loop of the proxy route handler (index.js lines 51–60):
start from `req.originalUrl`; for each pattern of `route.pathRewrite`,
if the pattern tests true on the original URL, the target path becomes
the original URL with that pattern replaced (computed from the original
URL, not the accumulator). -/
def applyPathRewrite (rules : List (String × String)) (originalUrl : String) : String :=
  rules.foldl
    (fun targetPath pr =>
      if regexTestAnchored pr.1 originalUrl then
        regexReplaceAnchored pr.1 pr.2 originalUrl
      else targetPath)
    originalUrl

/-- `route.target + targetPath` (index.js line 62). -/
def buildTargetUrl (route : Route) (originalUrl : String) : String :=
  route.target ++ applyPathRewrite route.pathRewrite originalUrl

/-- C4: for a route with a single rewrite rule (as all configured routes
have), the rule is applied exactly once when its pattern matches and the
original path is used unchanged when it does not; in particular the
rule `^/api/auth/v1 → ''` with target `http://auth:3001` forwards
`GET /api/auth/v1/me` to `http://auth:3001/me`. -/
theorem rewrite_applied_once_or_unchanged (pat rep P : String) :
    (regexTestAnchored pat P = false → applyPathRewrite [(pat, rep)] P = P) ∧
    (regexTestAnchored pat P = true →
       applyPathRewrite [(pat, rep)] P = regexReplaceAnchored pat rep P) ∧
    buildTargetUrl { authRoute with target := "http://auth:3001" } "/api/auth/v1/me"
      = "http://auth:3001/me" := by
  refine ⟨?_, ?_, by decide⟩
  · intro h
    simp [applyPathRewrite, h]
  · intro h
    simp [applyPathRewrite, h]

/-- Witness for C4's theorem: the auth rewrite rule matches
`/api/auth/v1/me` and rewrites it to `/me`; a pattern for another
service does not match it and leaves it unchanged. -/
theorem rewrite_applied_once_or_unchanged_witness :
    applyPathRewrite [("^/api/auth/v1", "")] "/api/auth/v1/me" = "/me" ∧
    applyPathRewrite [("^/api/users/v1", "")] "/api/auth/v1/me" = "/api/auth/v1/me" := by
  constructor
  · rw [(rewrite_applied_once_or_unchanged "^/api/auth/v1" "" "/api/auth/v1/me").2.1
        (by decide)]
    decide
  · exact (rewrite_applied_once_or_unchanged "^/api/users/v1" "" "/api/auth/v1/me").1
      (by decide)

/-! ## Token cache (api-gateway/src/middleware/auth.js) -/

/-- `CACHE_TTL = 5 * 60 * 1000` ms (auth.js line 8). -/
def CACHE_TTL : Nat := 5 * 60 * 1000

/-- One entry of the `tokenCache` map: the raw token key and the stored
`{ user, timestamp }` value (auth.js lines 95–98).  The decoded user
claims are opaque to the cache and modelled as a string payload. -/
structure CachedEntry where
  token : String
  user : String
  timestamp : Nat
deriving DecidableEq, Repr

/-- `tokenCache.get(token)` on the map modelled as an association list
(a JS `Map` holds at most one entry per key). -/
def cacheGet (cache : List CachedEntry) (tok : String) : Option CachedEntry :=
  cache.find? (fun e => e.token == tok)

/-- What the cache fast path decides for a request. -/
inductive CacheDecision where
  | servedFromCache (user : String)
  | reverify
deriving DecidableEq, Repr

/-- The cache fast path of `authenticateToken` (auth.js lines 42–48): if
an entry exists and `Date.now() - cachedData.timestamp < CACHE_TTL`, the
cached user is served and verification is skipped; otherwise the flow
falls through to `jwt.verify`. -/
def authCacheStep (cache : List CachedEntry) (tok : String) (now : Nat) : CacheDecision :=
  match cacheGet cache tok with
  | some e => if now - e.timestamp < CACHE_TTL then .servedFromCache e.user else .reverify
  | none => .reverify

/-- The periodic sweep (auth.js lines 193–200): delete every entry with
`now - data.timestamp > CACHE_TTL`. -/
def sweepCache (cache : List CachedEntry) (now : Nat) : List CachedEntry :=
  cache.filter (fun e => !(now - e.timestamp > CACHE_TTL))

/-- C5: a token cached at time `T` is served from the cache, without
re-verification, by every request arriving strictly before `T + TTL`;
a request at or after `T + TTL` falls through to re-verification; and no
sweep run at or before `T + TTL` evicts the entry. -/
theorem token_cache_ttl (cache : List CachedEntry) (tok user : String) (T : Nat)
    (hentry : cacheGet cache tok = some ⟨tok, user, T⟩) :
    (∀ now, now < T + CACHE_TTL →
       authCacheStep cache tok now = .servedFromCache user) ∧
    (∀ now, now ≥ T + CACHE_TTL → authCacheStep cache tok now = .reverify) ∧
    (∀ s, s ≤ T + CACHE_TTL → (⟨tok, user, T⟩ : CachedEntry) ∈ sweepCache cache s) := by
  have hTTL : CACHE_TTL = 300000 := rfl
  refine ⟨?_, ?_, ?_⟩
  · intro now hnow
    simp only [authCacheStep, hentry]
    rw [if_pos (by omega)]
  · intro now hnow
    simp only [authCacheStep, hentry]
    rw [if_neg (by omega)]
  · intro s hs
    have hmem : (⟨tok, user, T⟩ : CachedEntry) ∈ cache :=
      List.mem_of_find?_eq_some hentry
    refine List.mem_filter.mpr ⟨hmem, ?_⟩
    simp only [Bool.not_eq_true']
    simp only [decide_eq_false_iff_not, not_lt]
    omega

/-- Witness for C5's theorem on a concrete one-entry cache (token cached
at 1000 ms): a request at 5000 ms hits the cache, a request at 301000 ms
(= `T + TTL`) re-verifies, and a sweep at 200000 ms keeps the entry. -/
theorem token_cache_ttl_witness :
    authCacheStep [⟨"tok", "alice", 1000⟩] "tok" 5000 = .servedFromCache "alice" ∧
    authCacheStep [⟨"tok", "alice", 1000⟩] "tok" 301000 = .reverify ∧
    (⟨"tok", "alice", 1000⟩ : CachedEntry) ∈ sweepCache [⟨"tok", "alice", 1000⟩] 200000 := by
  have h := token_cache_ttl [⟨"tok", "alice", 1000⟩] "tok" "alice" 1000 (by decide)
  exact ⟨h.1 5000 (by decide), h.2.1 301000 (by decide), h.2.2 200000 (by decide)⟩

/-! ## JWT verification failure responses
(auth-service/src/middleware/auth.js, api-gateway/src/middleware/auth.js) -/

/-- The error classes `jsonwebtoken`'s `verify` throws on a bad token:
`TokenExpiredError` for an expired token, `JsonWebTokenError` for a
malformed/invalid one. -/
inductive JwtVerifyError where
  | expiredError
  | malformedError
deriving DecidableEq, Repr

/-- An HTTP error response: status code and the `error` message field. -/
structure ErrorResponse where
  status : Nat
  errorMsg : String
deriving DecidableEq, Repr

/-- The catch branches of the auth-service `authMiddleware`
(auth-service/src/middleware/auth.js lines 47–61): `JsonWebTokenError`
gets 401 "Token inválido", `TokenExpiredError` gets 401 "Token
expirado". -/
def authServiceVerifyFailureResponse : JwtVerifyError → ErrorResponse
  | .malformedError => ⟨401, "Token inválido"⟩
  | .expiredError => ⟨401, "Token expirado"⟩

/-- The single catch around `jwt.verify` in the gateway's
`authenticateToken` (api-gateway/src/middleware/auth.js lines 50–61):
every verification failure, expired tokens included, gets
`createError(401, 'Token inválido')`. -/
def gatewayVerifyFailureResponse : JwtVerifyError → ErrorResponse
  | _ => ⟨401, "Token inválido"⟩

/-- Counterexample for C6 as stated: in the gateway middleware an expired
JWT receives the generic "Token inválido" message, identical to the
malformed-token response — no distinguishing "token expired" message. -/
theorem gateway_expired_token_generic_message :
    gatewayVerifyFailureResponse .expiredError = ⟨401, "Token inválido"⟩ ∧
    gatewayVerifyFailureResponse .expiredError
      = gatewayVerifyFailureResponse .malformedError := by
  exact ⟨rfl, rfl⟩

/-- C6 (amended): every verification failure is answered 401; the
auth-service middleware distinguishes expired ("Token expirado") from
malformed ("Token inválido") tokens, while the gateway middleware
answers the generic "Token inválido" for every failure kind. -/
theorem verify_failure_responses :
    (∀ e, (authServiceVerifyFailureResponse e).status = 401) ∧
    authServiceVerifyFailureResponse .expiredError = ⟨401, "Token expirado"⟩ ∧
    authServiceVerifyFailureResponse .malformedError = ⟨401, "Token inválido"⟩ ∧
    authServiceVerifyFailureResponse .expiredError
      ≠ authServiceVerifyFailureResponse .malformedError ∧
    (∀ e, gatewayVerifyFailureResponse e = ⟨401, "Token inválido"⟩) := by
  refine ⟨fun e => ?_, rfl, rfl, by decide, fun e => ?_⟩ <;> cases e <;> rfl

/-! ## Auth-service introspection fallback (api-gateway/src/middleware/auth.js) -/

/-- Outcome of the axios POST to `${authServiceUrl}/validate-token`
(auth.js lines 127–137): axios resolves on a 2xx response, rejects with
`error.response` set on a non-2xx response, and rejects without a
response on a network failure (service unreachable). -/
inductive IntrospectionOutcome where
  | resolved (status : Nat) (user : Option String)
  | httpRejected (status : Nat)
  | networkFailure
deriving DecidableEq, Repr

/-- The `{valid, user}` object `validateTokenWithAuthService` resolves
with. -/
structure ValidationVerdict where
  valid : Bool
  user : Option String
deriving DecidableEq, Repr

/-- `validateTokenWithAuthService` (auth.js lines 125–149): a resolved
response yields `{valid: status === 200, user}`; in the catch, a 401
response yields `{valid: false}` and anything else is rethrown. -/
def validateTokenWithAuthService :
    IntrospectionOutcome → Except Unit ValidationVerdict
  | .resolved s u => .ok ⟨s == 200, u⟩
  | .httpRejected s => if s == 401 then .ok ⟨false, none⟩ else .error ()
  | .networkFailure => .error ()

/-- What the gateway does with the request after the introspection
attempt. -/
inductive AuthGateResult where
  | proceed (user : String)
  | unauthorized (status : Nat)
deriving DecidableEq, Repr

/-- The auth-service branch of `authenticateToken` (auth.js lines
63–87), entered after local verification succeeded with claims
`decoded`: an explicit `valid: false` verdict yields 401, a thrown
error falls back to the locally verified claims, and on success the
service's user object (when present) supersedes the local claims. -/
def gatewayAuthAfterLocalVerify (decoded : String)
    (o : IntrospectionOutcome) : AuthGateResult :=
  match validateTokenWithAuthService o with
  | .ok v => if v.valid then .proceed (v.user.getD decoded) else .unauthorized 401
  | .error _ => .proceed decoded

/-- C7: when the introspection call fails because the auth service is
unreachable (network failure, or a rethrown non-401 transport error),
the gateway proceeds with the locally verified claims; a 401 is produced
only when the auth service itself delivered an invalid verdict — a 401
rejection or a resolved response whose status is not 200. -/
theorem auth_service_unreachable_fallback (decoded : String)
    (o : IntrospectionOutcome) :
    gatewayAuthAfterLocalVerify decoded .networkFailure = .proceed decoded ∧
    (∀ s, s ≠ 401 →
       gatewayAuthAfterLocalVerify decoded (.httpRejected s) = .proceed decoded) ∧
    (∀ st, gatewayAuthAfterLocalVerify decoded o = .unauthorized st →
       st = 401 ∧
       (o = .httpRejected 401 ∨ ∃ s u, o = .resolved s u ∧ s ≠ 200)) := by
  refine ⟨rfl, ?_, ?_⟩
  · intro s hs
    simp [gatewayAuthAfterLocalVerify, validateTokenWithAuthService, hs]
  · intro st h
    cases o with
    | resolved s u =>
      by_cases h200 : s = 200
      · subst h200
        simp [gatewayAuthAfterLocalVerify, validateTokenWithAuthService] at h
      · simp [gatewayAuthAfterLocalVerify, validateTokenWithAuthService, h200] at h
        exact ⟨h.symm, Or.inr ⟨s, u, rfl, h200⟩⟩
    | httpRejected s =>
      by_cases h401 : s = 401
      · subst h401
        simp [gatewayAuthAfterLocalVerify, validateTokenWithAuthService] at h
        exact ⟨h.symm, Or.inl rfl⟩
      · simp [gatewayAuthAfterLocalVerify, validateTokenWithAuthService, h401] at h
    | networkFailure =>
      simp [gatewayAuthAfterLocalVerify, validateTokenWithAuthService] at h

/-- Witness for C7's theorem at concrete inputs: a 500 transport error is
rethrown and falls back to the local claims, and the 401 produced for an
explicit auth-service rejection indeed comes from that rejection. -/
theorem auth_service_unreachable_fallback_witness :
    gatewayAuthAfterLocalVerify "claims" .networkFailure = .proceed "claims" ∧
    gatewayAuthAfterLocalVerify "claims" (.httpRejected 500) = .proceed "claims" ∧
    (401 = 401 ∧
     ((.httpRejected 401 : IntrospectionOutcome) = .httpRejected 401 ∨
      ∃ s u, (.httpRejected 401 : IntrospectionOutcome) = .resolved s u ∧ s ≠ 200)) :=
  ⟨(auth_service_unreachable_fallback "claims" .networkFailure).1,
   (auth_service_unreachable_fallback "claims" .networkFailure).2.1 500 (by decide),
   (auth_service_unreachable_fallback "claims" (.httpRejected 401)).2.2 401 (by decide)⟩

/-! ## Health aggregation (api-gateway/src/routes/health.js) -/

/-- Per-service status classification used by the health endpoints. -/
inductive SvcStatus where
  | up
  | degraded
  | down
deriving DecidableEq, Repr

/-- What happened when the health URL of a service was queried. -/
inductive HealthOutcome where
  | responded (status : Nat)
  | netFail
deriving DecidableEq, Repr

/-- `checkServiceHealth` / `checkServiceHealthDetailed` (health.js lines
462–482 and 485–508) combined with the `Promise.allSettled` mapping
(lines 273–290): axios accepts a response when `status < 500` and the
service is `up` when `status < 400`, `degraded` otherwise; a 5xx
response or a network failure makes axios reject, the catch rethrows,
and the settled rejection is mapped to `down`. -/
def classifyHealth : HealthOutcome → SvcStatus
  | .responded s => if s < 500 then (if s < 400 then .up else .degraded) else .down
  | .netFail => .down

/-- The rolled-up gateway status. -/
inductive Overall where
  | healthy
  | degraded
  | unhealthy
deriving DecidableEq, Repr

def countStatus (ss : List SvcStatus) (x : SvcStatus) : Nat :=
  (ss.filter (fun s => s == x)).length

/-- The rollup of the basic aggregate endpoint `GET /health` with
`checkServices=true` (health.js lines 292–297): only services whose
status is `down` are counted; `unhealthy` when every service is down,
`degraded` when some but not all are, otherwise the initial `healthy`
stands. -/
def basicOverall (ss : List SvcStatus) : Overall :=
  if countStatus ss .down > 0 then
    (if countStatus ss .down = ss.length then .unhealthy else .degraded)
  else .healthy

/-- The rollup of `GET /health/detailed` (health.js lines 399–404):
`unhealthy` when the down count equals the total, else `degraded` when
any service is down or degraded, else `healthy`. -/
def detailedOverall (ss : List SvcStatus) : Overall :=
  if countStatus ss .down = ss.length then .unhealthy
  else if countStatus ss .down > 0 ∨ countStatus ss .degraded > 0 then .degraded
  else .healthy

/-- HTTP status for a rolled-up status (health.js lines 301–307 and
408–413): 503 when unhealthy, 207 Multi-Status when degraded, else 200. -/
def healthHttpStatus : Overall → Nat
  | .unhealthy => 503
  | .degraded => 207
  | .healthy => 200

/-- Counterexample for C8 as stated: with a single degraded (but not
down) service — health endpoint answering 450 — the basic aggregate
rollup reports `healthy` with HTTP 200, not `degraded` with 207 as the
claim's characterization ("degraded otherwise: some down or degraded
but not all down") requires. -/
theorem basic_health_ignores_degraded_counterexample :
    classifyHealth (.responded 450) = .degraded ∧
    basicOverall [.up, .up, .degraded] = .healthy ∧
    basicOverall [.up, .up, .degraded] ≠ .degraded ∧
    healthHttpStatus (basicOverall [.up, .up, .degraded]) = 200 := by
  decide

/-- C8 (amended): the basic rollup is `unhealthy` iff all services are
down (and there is at least one), `degraded` iff some but not all are
down, and `healthy` iff none are down — degraded services do not affect
it; the detailed rollup is `unhealthy` iff the down count equals the
total, `degraded` iff not all are down but some service is down or
degraded, and `healthy` otherwise.  In Scenario D (one 500, two 200
health responses) both endpoints report `degraded`, sent as HTTP 207. -/
theorem health_rollup_characterization (ss : List SvcStatus) :
    (basicOverall ss = .unhealthy ↔
       0 < countStatus ss .down ∧ countStatus ss .down = ss.length) ∧
    (basicOverall ss = .degraded ↔
       0 < countStatus ss .down ∧ countStatus ss .down ≠ ss.length) ∧
    (basicOverall ss = .healthy ↔ countStatus ss .down = 0) ∧
    (detailedOverall ss = .unhealthy ↔ countStatus ss .down = ss.length) ∧
    (detailedOverall ss = .degraded ↔
       countStatus ss .down ≠ ss.length ∧
       (0 < countStatus ss .down ∨ 0 < countStatus ss .degraded)) ∧
    (detailedOverall ss = .healthy ↔
       countStatus ss .down ≠ ss.length ∧ countStatus ss .down = 0 ∧
       countStatus ss .degraded = 0) ∧
    (List.map classifyHealth [.responded 500, .responded 200, .responded 200]
       = [.down, .up, .up]) ∧
    basicOverall [.down, .up, .up] = .degraded ∧
    detailedOverall [.down, .up, .up] = .degraded ∧
    healthHttpStatus .degraded = 207 ∧ healthHttpStatus .unhealthy = 503 := by
  refine ⟨?_, ?_, ?_, ?_, ?_, ?_, by decide, by decide, by decide, rfl, rfl⟩
  · simp only [basicOverall]
    split_ifs <;> simp_all
  · simp only [basicOverall]
    split_ifs <;> simp_all
  · simp only [basicOverall]
    split_ifs <;> simp_all
    · rintro rfl
      simp_all
    · omega
  · simp only [detailedOverall]
    split_ifs <;> simp_all
  · simp only [detailedOverall]
    split_ifs <;> simp_all
  · simp only [detailedOverall]
    split_ifs <;> simp_all
    omega

/-! ## Outbound timeout (api-gateway/src/index.js,
api-gateway/src/middleware/simple-proxy.js) -/

/-- The `timeout` field of the axios request configuration built by the
proxy route handler (index.js lines 66–74): the literal `10000`, taking
no input from the matched route's `timeout` field. -/
def axiosTimeoutFor (_route : Route) : Nat := 10000

/-- How an axios failure surfaces in the proxy route handler's catch. -/
inductive AxiosFailure where
  | upstreamResponse (status : Nat)
  | econnAborted
  | otherNetworkError
deriving DecidableEq, Repr

/-- The catch of the proxy route handler (index.js lines 88–107): an
upstream response outside 2xx is relayed with its own status,
`ECONNABORTED` (the axios timeout firing) becomes 504 Gateway Timeout,
anything else 502 Bad Gateway. -/
def proxyErrorStatus : AxiosFailure → Nat
  | .upstreamResponse s => s
  | .econnAborted => 504
  | .otherNetworkError => 502

/-- `proxyReq.setTimeout(10000, ...)` in the simple proxy
(simple-proxy.js lines 47–55): also the fixed literal 10000 ms. -/
def simpleProxyTimeoutMs : Nat := 10000

/-- The response the simple proxy sends when its timeout fires
(simple-proxy.js lines 49–54). -/
def simpleProxyTimeoutStatus : Nat := 504

/-- Counterexample for C9 as stated: the auth route is configured with
`timeout: 30000`, but the proxy handler's outbound axios call uses the
fixed 10000 ms timeout, not the route's configured value. -/
theorem route_timeout_ignored_counterexample :
    authRoute.timeout = 30000 ∧ axiosTimeoutFor authRoute = 10000 ∧
    axiosTimeoutFor authRoute ≠ authRoute.timeout := by
  decide

/-- C9 (amended): every forwarded request's outbound call is bounded by
a fixed 10-second timeout regardless of the matched route's configured
timeout, and when that timeout fires (axios `ECONNABORTED`; the simple
proxy's `setTimeout` callback) the gateway responds 504 Gateway
Timeout. -/
theorem outbound_timeout_fixed_ten_seconds_504 :
    (∀ r : Route, axiosTimeoutFor r = 10000) ∧
    proxyErrorStatus .econnAborted = 504 ∧
    simpleProxyTimeoutMs = 10000 ∧ simpleProxyTimeoutStatus = 504 :=
  ⟨fun _ => rfl, rfl, rfl, rfl⟩

end Gateway

namespace AuthService

/-! ## User serialization
(auth-service-microservice/src/models/User.js,
auth-service-microservice/src/routes/auth.js) -/

/-- A JSON value, as serialized into an HTTP response body. -/
inductive JValue where
  | str (s : String)
  | num (n : Nat)
  | jbool (b : Bool)
  | null
  | arr (xs : List JValue)

/-- One element of the `refreshTokens` array (User.js lines 92–102). -/
structure RefreshTokenEntry where
  token : String
  createdAt : Nat
  expiresAt : Nat

/-- The fields of a `User` mongoose document (User.js lines 5–103,
plus the `_id` and timestamp fields mongoose adds). -/
structure UserDoc where
  id : String
  usuario : String
  firstName : String
  lastName : String
  password : String
  email : String
  departamento : String
  rol : String
  isActive : Bool
  isEmailVerified : Bool
  emailVerificationToken : Option String
  passwordResetToken : Option String
  passwordResetExpires : Option Nat
  lastLogin : Option Nat
  loginAttempts : Nat
  lockUntil : Option Nat
  refreshTokens : List RefreshTokenEntry
  createdAt : Nat
  updatedAt : Nat

def optStr : Option String → JValue
  | some s => .str s
  | none => .null

def optNum : Option Nat → JValue
  | some n => .num n
  | none => .null

/-- The key/value pairs of the raw document object (`ret`) that the
schema's `toJSON` transform starts from: every schema field plus `_id`,
the `timestamps: true` fields and the mongoose version key `__v`. -/
def userDocFields (u : UserDoc) : List (String × JValue) :=
  [("_id", .str u.id),
   ("usuario", .str u.usuario),
   ("firstName", .str u.firstName),
   ("lastName", .str u.lastName),
   ("password", .str u.password),
   ("email", .str u.email),
   ("departamento", .str u.departamento),
   ("rol", .str u.rol),
   ("isActive", .jbool u.isActive),
   ("isEmailVerified", .jbool u.isEmailVerified),
   ("emailVerificationToken", optStr u.emailVerificationToken),
   ("passwordResetToken", optStr u.passwordResetToken),
   ("passwordResetExpires", optNum u.passwordResetExpires),
   ("lastLogin", optNum u.lastLogin),
   ("loginAttempts", .num u.loginAttempts),
   ("lockUntil", optNum u.lockUntil),
   ("refreshTokens", .arr (u.refreshTokens.map (fun rt => .str rt.token))),
   ("createdAt", .num u.createdAt),
   ("updatedAt", .num u.updatedAt),
   ("__v", .num 0)]

/-- The keys the `toJSON` transform deletes (User.js lines 105–114):
`delete ret.password; delete ret.refreshTokens;
delete ret.emailVerificationToken; delete ret.passwordResetToken;
delete ret.__v`. -/
def toJSONDeletedKeys : List String :=
  ["password", "refreshTokens", "emailVerificationToken",
   "passwordResetToken", "__v"]

/-- `user.toJSON()`: the document fields with the transform's deletions
applied. -/
def userToJSON (u : UserDoc) : List (String × JValue) :=
  (userDocFields u).filter (fun kv => !(toJSONDeletedKeys.contains kv.1))

/-- The four auth-service endpoints that serialize a user into an HTTP
response. -/
inductive AuthEndpoint where
  | register
  | login
  | me
  | verifyToken
deriving DecidableEq, Repr

/-- The user object each endpoint embeds in its response body: all four
handlers (routes/auth.js lines 118–128, 198–208, 337–342, 344–350) call
`user.toJSON()` / `req.user.toJSON()`. -/
def responseUserObject (ep : AuthEndpoint) (u : UserDoc) : List (String × JValue) :=
  match ep with
  | .register => userToJSON u
  | .login => userToJSON u
  | .me => userToJSON u
  | .verifyToken => userToJSON u

/-- Whether a serialized object carries a field with key `k`. -/
def hasKey (fields : List (String × JValue)) (k : String) : Bool :=
  fields.any (fun kv => kv.1 == k)

/-- C10: for every user state and every endpoint that serializes a user
(registration, login, profile, token verification), the serialized user
object carries none of the secret fields — no password hash, no refresh
token list, no email-verification token, no password-reset token — while
ordinary identity fields such as `usuario` and `email` survive. -/
theorem serialized_user_never_leaks_secrets (u : UserDoc) (ep : AuthEndpoint) :
    hasKey (responseUserObject ep u) "password" = false ∧
    hasKey (responseUserObject ep u) "refreshTokens" = false ∧
    hasKey (responseUserObject ep u) "emailVerificationToken" = false ∧
    hasKey (responseUserObject ep u) "passwordResetToken" = false ∧
    hasKey (responseUserObject ep u) "usuario" = true ∧
    hasKey (responseUserObject ep u) "email" = true := by
  cases ep <;> exact ⟨rfl, rfl, rfl, rfl, rfl, rfl⟩

end AuthService
